import Mathlib

/-!
Verification of the cpppo EtherNet/IP server front-end
(`cpppo/server/enip/main.py`).

The development shallowly embeds the parts of `main.py` that the checked
properties are about:

* the CLI tag specification parser in `main` (lines 803-828);
* tag/Attribute creation from a parsed specification (lines 822-828);
* the `delay_range` background mutator (lines 771-785);
* the per-reply artificial-delay handling in `enip_srv` (lines 648-660);
* the socket-refill timeout selection (line 613);
* the inner refill loop of `enip_srv` (lines 611-629);
* the outer handler loop and connection registration/cleanup of
  `enip_srv` (lines 588-692);
* the control-plane read/write path of `api_request` (lines 325-386).

Python numbers are modelled as `Int`/`Rat`; Python `dict`s as association
lists; the collaborators that live outside this file's source
(`network.recv`, the `parser.enip_machine` DFA, `enip_process`) are
modelled as scripted oracles, since `enip_srv` receives them as data and
only their outcomes matter to its control flow.
-/

namespace Cpppo

/-! ## Small models of Python primitives -/

/-- Value of a list of decimal digit characters (most significant first). -/
def natOfDigits (cs : List Char) : Nat :=
  cs.foldl (fun a c => a * 10 + (c.toNat - 48)) 0

/-- Model of Python `float(str)` restricted to the simple decimal forms
`[+|-]digits`, `[+|-]digits.digits`, `[+|-].digits`, `[+|-]digits.`
(the `#[.#]` shapes the source's comments describe).  Anything else is a
conversion failure (`ValueError`), modelled as `none`. -/
def parsePyFloat (s : String) : Option ℚ :=
  let cs := s.toList
  let (neg, cs1) :=
    match cs with
    | '-' :: r => (true, r)
    | '+' :: r => (false, r)
    | _        => (false, cs)
  let intPart  := cs1.takeWhile (fun c => c.isDigit)
  let rest     := cs1.dropWhile (fun c => c.isDigit)
  match rest with
  | [] =>
      if intPart.isEmpty then none
      else some ((if neg then (-1 : ℚ) else 1) * (natOfDigits intPart : ℚ))
  | '.' :: frac =>
      if frac.all (fun c => c.isDigit) && !(intPart.isEmpty && frac.isEmpty) then
        some ((if neg then (-1 : ℚ) else 1) *
              ((natOfDigits intPart : ℚ) + (natOfDigits frac : ℚ) / (10 ^ frac.length)))
      else none
  | _ => none

/-- Model of Python `int(str)` restricted to `[+|-]digits` with optional
surrounding spaces.  Anything else raises, modelled as `none`. -/
def pyInt (s : String) : Option ℤ :=
  let cs := ((s.toList.dropWhile (fun c => c == ' ')).reverse.dropWhile
              (fun c => c == ' ')).reverse
  match cs with
  | '-' :: r =>
      if !r.isEmpty && r.all (fun c => c.isDigit) then some (-(natOfDigits r : ℤ)) else none
  | '+' :: r =>
      if !r.isEmpty && r.all (fun c => c.isDigit) then some (natOfDigits r : ℤ) else none
  | r =>
      if !r.isEmpty && r.all (fun c => c.isDigit) then some (natOfDigits r : ℤ) else none

/-- Python `c in s` for a single character. -/
def strContains (s : String) (c : Char) : Bool :=
  s.toList.contains c

/-- Python `s.split(c, 1)`: the part before the first occurrence of `c`
and the part after it (the caller checks `c in s` first). -/
def splitOnce (s : String) (c : Char) : String × String :=
  let l := s.toList
  ((l.takeWhile (fun x => x != c)).asString,
   ((l.dropWhile (fun x => x != c)).drop 1).asString)

/-- Python `s.split(c)` (split on every occurrence). -/
def splitAllAux (c : Char) : List Char → List (List Char)
  | [] => [[]]
  | x :: r =>
      let rest := splitAllAux c r
      if x == c then [] :: rest
      else
        match rest with
        | h :: t => (x :: h) :: t
        | [] => [[x]]

def splitAll (s : String) (c : Char) : List String :=
  (splitAllAux c s.toList).map List.asString

/-- Python `str.upper()` (ASCII, which is all the source uses). -/
def upperStr (s : String) : String :=
  (s.toList.map Char.toUpper).asString

/-- Python `str.lower()` (ASCII, which is all the source uses). -/
def lowerStr (s : String) : String :=
  (s.toList.map Char.toLower).asString

/-! ## CLI tag specification parsing (`main`, lines 803-820)

```
tag_name, rest      = t, ''
if '=' in tag_name:
    tag_name, rest  = tag_name.split( '=', 1 )
tag_type, rest      = rest or 'INT', ''
tag_size            = 1
if '[' in tag_type:
    tag_type, rest  = tag_type.split( '[', 1 )
    assert ']' in rest, "Invalid tag; mis-matched [...]"
    tag_size, rest  = rest.split( ']', 1 )
assert not rest, "Invalid tag specified; ..."
tag_type            = str( tag_type ).upper()
typenames           = {"INT": ..., "DINT": ..., "SINT": ...}
assert tag_type in typenames, "Invalid tag type; ..."
try:
    tag_size        = int( tag_size )
except:
    raise AssertionError( "Invalid tag size: %r" % tag_size )
```

A failed `assert` (or the re-raised size error) aborts `main`: modelled as
`none`.  A successful parse yields `(tag_name, tag_type, tag_size)`. -/

def parse_tag (t : String) : Option (String × String × ℤ) :=
  let nameRest := if strContains t '=' then splitOnce t '=' else (t, "")
  let tag_name := nameRest.1
  let rest := nameRest.2
  let tag_type0 := if rest = "" then "INT" else rest
  if strContains tag_type0 '[' then
    let tyRest := splitOnce tag_type0 '['
    if strContains tyRest.2 ']' then
      let szRest := splitOnce tyRest.2 ']'
      if szRest.2 = "" then
        let tyU := upperStr tyRest.1
        if tyU = "INT" ∨ tyU = "DINT" ∨ tyU = "SINT" then
          (pyInt szRest.1).map (fun sz => (tag_name, tyU, sz))
        else none
      else none
    else none
  else
    let tyU := upperStr tag_type0
    if tyU = "INT" ∨ tyU = "DINT" ∨ tyU = "SINT" then
      some (tag_name, tyU, 1)
    else none

/-! ## Tag creation (`main`, lines 822-828)

```
tags[tag_name]          = cpppo.dotdict()
tags[tag_name].attribute= device.Attribute( tag_name, typenames[tag_type],
                                            default=( 0 if tag_size == 1
                                                      else [0 for i in range( tag_size )]))
tags[tag_name].error    = 0x00
```

`device.Attribute` merely stores the default (it is outside this file's
source); the observable initial state is the default value and the error
code.  Python `range(n)` is empty for `n ≤ 0`, matching `Int.toNat`. -/

/-- The default value given to a freshly created tag's Attribute: the
scalar `0`, or a list of zeros. -/
inductive TagDefault where
  | scalar (v : ℤ)
  | array (vs : List ℤ)
deriving Repr, DecidableEq

/-- The per-tag entry placed into the global `tags` map at startup. -/
structure TagEntry where
  error : Nat
  default : TagDefault
deriving Repr, DecidableEq

def create_tag (tag_size : ℤ) : TagEntry :=
  { error := 0x00
    default := if tag_size = 1 then TagDefault.scalar 0
               else TagDefault.array (List.replicate tag_size.toNat 0) }

/-! ## Artificial reply delay (`enip_srv`, lines 648-660)

```
if delay:
    # A delay (anything with a delay.value attribute) == #[.#] (converible
    # to float) is ok; may be changed via web interface.
    try:
        seconds = float( delay.value if hasattr( delay, 'value' ) else delay )
        time.sleep( seconds )
    except Exception as exc:
        log.detail( "Unable to delay; invalid seconds: %r", delay )
try:
    conn.send( rpy )
except socket.error as exc:
    ...
```

`conn.send` runs regardless of what the delay block did: any exception in
`float(...)` or `time.sleep(...)` (which raises on negative seconds) is
caught and logged. -/

/-- A dynamically-typed Python value appearing as `delay.value`. -/
inductive PyV where
  | num (q : ℚ)
  | str (s : String)
  | pyNone
deriving Repr, DecidableEq

/-- Python `float(v)` on a `PyV`: numbers convert, strings parse,
`None` raises. -/
def pyFloatV : PyV → Option ℚ
  | PyV.num q => some q
  | PyV.str s => parsePyFloat s
  | PyV.pyNone => none

/-- The `delay` argument of `enip_srv`: absent (`None`, the default), a
bare number, or an object carrying a `.value` attribute (such as the
`options.delay` dotdict, which is truthy as a non-empty dict). -/
inductive Delay where
  | noDelay
  | plain (q : ℚ)
  | obj (value : PyV)
deriving Repr, DecidableEq

/-- Seconds actually slept before the reply is sent, or `none` when no
sleep happens (delay falsy, `float(...)` raised, or `time.sleep` raised
on a negative argument; the latter two are caught and logged). -/
def reply_delay : Delay → Option ℚ
  | Delay.noDelay => none
  | Delay.plain q =>
      if q = 0 then none
      else if 0 ≤ q then some q else none
  | Delay.obj v =>
      match pyFloatV v with
      | some secs => if 0 ≤ secs then some secs else none
      | none => none

/-- Outcome of the `conn.send(rpy)` that follows the delay block. -/
inductive SendOutcome where
  | sent
  | sockErr
deriving Repr, DecidableEq

/-- The delay-then-send sequence for one reply (lines 648-660): the sleep
is computed from the delay value read for this reply, and the send is
attempted unconditionally afterwards (`sendOk` scripts whether the
socket accepts it). -/
def send_reply (delay : Delay) (sendOk : Bool) : Option ℚ × SendOutcome :=
  (reply_delay delay, if sendOk then SendOutcome.sent else SendOutcome.sockErr)

/-! ## The `--delay lo-hi` mutator (`delay_range`, lines 771-785)

```
while True:
    # Once we start, changes to delay.range will be re-evaluated each loop
    time.sleep( 1 )
    try:
        lo,hi           = map( float, kwds['delay']['range'].split( '-' ))
        kwds['delay']['value'] = random.uniform( lo, hi )
    except Exception as exc:
        log.warning( "No delay=#[.#]-#[.#] range specified: %s", exc )
```

One loop body is modelled as `delay_range_step`: it re-reads the current
`delay.range` string, and `random.uniform(lo, hi) = lo + (hi-lo)*u` for a
fresh `u = random.random() ∈ [0,1]`.  A parse failure leaves
`delay.value` unchanged. -/

/-- `kwds['delay']['range'].split('-')` fed to `float` and unpacked into
exactly two values; any failure is the caught exception. -/
def delay_range_parse (s : String) : Option (ℚ × ℚ) :=
  match (splitAll s '-').map parsePyFloat with
  | [some lo, some hi] => some (lo, hi)
  | _ => none

/-- `random.uniform(a, b)` with the underlying `random.random()` draw
`u ∈ [0,1]` made explicit. -/
def uniform (a b u : ℚ) : ℚ :=
  a + (b - a) * u

/-- One iteration of the `delay_range` mutator loop: the new
`delay.value`, given the current `delay.range` string, the random draw
`u`, and the current value. -/
def delay_range_step (rangeStr : String) (u : ℚ) (value : ℚ) : ℚ :=
  match delay_range_parse rangeStr with
  | some (lo, hi) => uniform lo hi u
  | none => value

/-! ## Socket-refill timeout (`enip_srv`, line 613)

```
msg = network.recv( conn, timeout=.1 if source.peek() is None else 0 )
```

The byte source is modelled as the list of its un-consumed bytes;
`source.peek()` is `None` exactly when that list is empty. -/

/-- Timeout (in seconds) passed to `network.recv` for one refill
attempt. -/
def refill_timeout (source : List Nat) : ℚ :=
  if source.isEmpty then 1/10 else 0

/-- Modelled from the spec: whether a complete ENIP frame sits at the
front of the byte source.  Per spec section 6 the encapsulation header is
24 bytes with a little-endian `u16` payload length at offset 2, so a full
frame needs `24 + length` buffered bytes.  (The frame grammar itself
lives in `parser.py`, outside this file's source.) -/
def full_frame_buffered (source : List Nat) : Bool :=
  decide (24 ≤ source.length) &&
  decide (24 + (source.getD 2 0 + 256 * source.getD 3 0) ≤ source.length)

/-! ## Per-connection stats (`enip_srv`, lines 588-598)

```
stats                   = cpppo.dotdict()
connkey                 = ( "%s_%d" % addr ).replace( '.', '_' )
connections[connkey]    = stats
...
stats.requests  = 0
stats.received  = 0
stats.eof       = False
stats.interface = addr[0]
stats.port      = addr[1]
```

(`stats.processed` is added from `source.sent` when the loop ends,
lines 670/673.) -/

structure Stats where
  requests : Nat
  received : Nat
  eof : Bool
  iface : String
  port : Nat
  processed : Nat
deriving Repr, DecidableEq

/-- The key under which a connection's stats live in the global
`connections` map: `("%s_%d" % addr).replace('.', '_')`.  For the
single-character pattern `'.'` Python `str.replace` is a character-wise
substitution. -/
def connkey (ip : String) (port : Nat) : String :=
  ((ip ++ "_" ++ toString port).toList.map
    (fun c => if c = '.' then '_' else c)).asString

/-- The freshly initialized stats entry for peer `(ip, port)`. -/
def initialStats (ip : String) (port : Nat) : Stats :=
  { requests := 0, received := 0, eof := false
    iface := ip, port := port, processed := 0 }

/-! ## The inner refill loop (`enip_srv`, lines 611-629)

```
msg     = None
while msg is None and not stats.eof:
    msg = network.recv( conn, timeout=.1 if source.peek() is None else 0 )
    if msg is not None:
        stats.received += len( msg )
        stats.eof       = stats.eof or not len( msg )
        source.chain( msg )
    else:
        if source.peek() is not None:
            break
        # We're at a None (can't proceed), and no input is available.  This
        # is where we implement "Blocking"; just loop.
```

`stats.eof` may concurrently be set by the control plane; each event of
the script carries such a write (applied before the guard is evaluated)
and the result of the `network.recv` call that follows if the guard
passes (`none` = timeout, `some bytes` = data, `some []` = EOF `b''`). -/

structure RefillEv where
  eofSet : Bool
  recv : Option (List Nat)
deriving Repr, DecidableEq

structure RefillOut where
  stats : Stats
  source : List Nat
  recvCount : Nat
  gotMsg : Bool
deriving Repr, DecidableEq

def refill (stats : Stats) (source : List Nat) : List RefillEv → RefillOut
  | [] => { stats := stats, source := source, recvCount := 0, gotMsg := false }
  | ev :: rest =>
    let stats1 := { stats with eof := stats.eof || ev.eofSet }
    if stats1.eof then
      -- guard `while msg is None and not stats.eof` fails: loop exits
      { stats := stats1, source := source, recvCount := 0, gotMsg := false }
    else
      match ev.recv with
      | some msg =>
          -- data (or EOF b''): account it, chain it, and exit (msg ≠ None)
          { stats := { stats1 with
                        received := stats1.received + msg.length
                        eof := stats1.eof || msg.isEmpty }
            source := source ++ msg, recvCount := 1, gotMsg := true }
      | none =>
          if !source.isEmpty then
            -- timeout with buffered input: break (lines 626-627)
            { stats := stats1, source := source, recvCount := 1, gotMsg := false }
          else
            let out := refill stats1 source rest
            { out with recvCount := out.recvCount + 1 }

/-! ## The outer handler loop (`enip_srv`, lines 599-692)

The DFA `parser.enip_machine` and the request processor `enip_process`
are collaborators passed in from outside this file's source; one
iteration of `while not stats.eof:` is therefore driven by a scripted
summary of what they did:

* `recvBytes`/`recvEof`/`ctrlEof`: the refill activity folded into its
  effect on `stats` (lines 614-616, plus control-plane writes);
* `consumed`: bytes the parser consumed (`source.sent` growth);
* `parsed`: the DFA run ended with a recognized request (`'request' in
  data`), completed with no request (clean EOF), or raised;
* `proc`: `enip_process` returned True (then `conn.send` either succeeds
  or raises `socket.error`), returned False, or raised.

The two assignments `eof = True` at lines 660 and 664 bind a FUNCTION
LOCAL variable named `eof`; no code reads it, and the loop guard reads
`stats.eof`.  The model keeps that local in `SessState.eofLocal` exactly
as the source does. -/

inductive ParseOutcome where
  | request
  | empty
  | fail
deriving Repr, DecidableEq

inductive ProcOutcome where
  | reply (sendOk : Bool)
  | close
  | err
deriving Repr, DecidableEq

structure Iter where
  recvBytes : Nat
  recvEof : Bool
  ctrlEof : Bool
  consumed : Nat
  parsed : ParseOutcome
  proc : ProcOutcome
deriving Repr, DecidableEq

structure SessState where
  stats : Stats
  eofLocal : Bool
  sent : Nat
  consumedTotal : Nat
deriving Repr, DecidableEq

inductive IterStep where
  | next (s : SessState)
  | raised (s : SessState)
deriving Repr, DecidableEq

/-- One iteration of the `while not stats.eof:` body (lines 600-668). -/
def iteration (s : SessState) (it : Iter) : IterStep :=
  -- refill effects on stats (lines 614-616 and concurrent eof writes)
  let stats1 := { s.stats with
                   received := s.stats.received + it.recvBytes
                   eof := s.stats.eof || it.recvEof || it.ctrlEof }
  let s1 := { s with stats := stats1, consumedTotal := s.consumedTotal + it.consumed }
  match it.parsed with
  | ParseOutcome.fail =>
      -- DFA raised (NonTerminal etc.); propagates to the outer except
      IterStep.raised s1
  | pout =>
      -- line 634-635: if 'request' in data: stats.requests += 1
      let s2 := if pout = ParseOutcome.request then
                  { s1 with stats := { s1.stats with requests := s1.stats.requests + 1 } }
                else s1
      match it.proc with
      | ProcOutcome.reply sendOk =>
          if sendOk then IterStep.next { s2 with sent := s2.sent + 1 }
          else
            -- socket.error from conn.send (lines 658-660): local eof only
            IterStep.next { s2 with eofLocal := true }
      | ProcOutcome.close =>
          -- enip_process returned False (lines 661-664): local eof only
          IterStep.next { s2 with eofLocal := true }
      | ProcOutcome.err =>
          -- lines 665-668: enip_process raised; re-raised after cleanup call
          IterStep.raised s2

inductive LoopExit where
  | clean
  | raised
  | starved
deriving Repr, DecidableEq

/-- The `while not stats.eof:` loop.  `starved` marks the script running
out while the loop would still continue (a model artifact, not a source
exit path). -/
def srv_loop : SessState → List Iter → LoopExit × SessState
  | s, [] =>
      if s.stats.eof then (LoopExit.clean, s) else (LoopExit.starved, s)
  | s, it :: rest =>
      if s.stats.eof then (LoopExit.clean, s)
      else
        match iteration s it with
        | IterStep.next s1 => srv_loop s1 rest
        | IterStep.raised s1 => (LoopExit.raised, s1)

/-! ## `enip_srv` as a whole (lines 576-692) -/

/-- The global `connections` map (a `cpppo.dotdict` keyed by connkey). -/
abbrev ConnMap := List (String × Stats)

def mapPop (m : ConnMap) (k : String) : ConnMap :=
  m.filter (fun p => p.1 != k)

def mapSet (m : ConnMap) (k : String) (v : Stats) : ConnMap :=
  (k, v) :: mapPop m k

/-- The `connections` map right after line 590 registered this
connection (the freshly created stats entry; its fields are filled in at
lines 594-598 before the loop begins). -/
def enip_srv_registered (ip : String) (port : Nat) (conns : ConnMap) : ConnMap :=
  mapSet conns (connkey ip port) (initialStats ip port)

structure SrvResult where
  connections : ConnMap
  outcome : LoopExit
  finalStats : Stats
  sent : Nat
deriving Repr, DecidableEq

/-- The whole per-connection handler: register the stats entry, run the
handler loop, set `stats.processed`, and - in the `finally` block
(line 686) - pop the entry again, on every exit path. -/
def enip_srv (ip : String) (port : Nat) (script : List Iter) (conns : ConnMap) :
    SrvResult :=
  let key := connkey ip port
  let conns1 := enip_srv_registered ip port conns
  let st0 : SessState :=
    { stats := initialStats ip port, eofLocal := false, sent := 0, consumedTotal := 0 }
  let res := srv_loop st0 script
  let statsF := { res.2.stats with processed := res.2.consumedTotal }
  { connections := mapPop conns1 key
    outcome := res.1
    finalStats := statsF
    sent := res.2.sent }

/-! ## The control-plane read/write path (`api_request`, lines 325-386)

```
for grp, obj in [
        ('options',     options),
        ('connections', connections),
        ('tags',        tags )]:
  for mch in [ m for m in dir( obj ) if not m.startswith( '_' ) ]:
    if not fnmatch.fnmatch( grp, group ):  continue
    if not fnmatch.fnmatch( mch, match ):  continue
    target = getattr( obj, mch, None )
    if not target:                         continue
    if not isinstance( target, dict ):     continue
    result = {}
    if command and command.lower() != "get":
        try:
            cur = getattr( target, command )
            typ = type( cur )
            try:
                cvt = typ( value )
            except TypeError:
                ...bool special case...
            setattr( target, command, cvt )
            ...
        except Exception as exc:
            ...no setattr...
    ...read-only reporting into content...
```

The three global maps are modelled as association lists of entries
(string-keyed dicts of primitive values); `dir()` enumeration order and
the JSON report do not affect the maps and are not modelled.  `fnmatch`
is a stdlib collaborator, modelled as a glob matcher over `*`, `?` and
literal characters (no claim depends on character classes). -/

/-- Glob matching of a pattern against a name (`fnmatch` collaborator). -/
def globMatch : List Char → List Char → Bool
  | [], s => s.isEmpty
  | '*' :: pr, s =>
      globMatch pr s ||
        (match s with
         | [] => false
         | _ :: sr => globMatch ('*' :: pr) sr)
  | '?' :: pr, s =>
      (match s with
       | [] => false
       | _ :: sr => globMatch pr sr)
  | c :: pr, s =>
      (match s with
       | [] => false
       | x :: sr => x == c && globMatch pr sr)
termination_by p s => p.length + s.length

def fnmatchB (name pat : String) : Bool :=
  globMatch pat.toList name.toList

/-- A primitive Python value stored in an entry of one of the three
global maps (stats counters, delay floats, tag error codes, ...). -/
inductive PyVal where
  | int (n : ℤ)
  | flt (q : ℚ)
  | str (s : String)
  | bool (b : Bool)
deriving Repr, DecidableEq

/-- One target dict (a stats entry, `options.delay`, a tag entry):
its non-underscore attributes. -/
abbrev Entry := List (String × PyVal)

def entryGet (e : Entry) (k : String) : Option PyVal :=
  e.lookup k

def entrySet (e : Entry) (k : String) (v : PyVal) : Entry :=
  e.map (fun p => if p.1 = k then (p.1, v) else p)

/-- `typ = type(cur); cvt = typ(value)`: coerce the textual value to the
current attribute's type.  `int`/`float` raise on bad strings (`none`);
`bool(str)` is string truthiness (the `TypeError` fallback in the source
is unreachable for string input). -/
def typeCoerce (cur : PyVal) (value : String) : Option PyVal :=
  match cur with
  | PyVal.int _ => (pyInt value).map PyVal.int
  | PyVal.flt _ => (parsePyFloat value).map PyVal.flt
  | PyVal.str _ => some (PyVal.str value)
  | PyVal.bool _ => some (PyVal.bool (value != ""))

/-- `if command and command.lower() != "get":` - whether the mutating
branch runs at all. -/
def commandActive : Option String → Bool
  | none => false
  | some c => c != "" && lowerStr c != "get"

/-- The effect of the command block on one matched target dict: a
`setattr` of the coerced value when the command is a set and both
`getattr` and the coercion succeed; otherwise (any exception) the target
is left unchanged. -/
def apiTargetUpdate (command : Option String) (value : String) (target : Entry) :
    Entry :=
  if commandActive command then
    match command with
    | some cmd =>
        match entryGet target cmd with
        | none => target
        | some cur =>
            match typeCoerce cur value with
            | some cvt => entrySet target cmd cvt
            | none => target
    | none => target
  else target

/-- Visit one `(mch, target)` of a group `grp`: the command block runs
only when both globs match and the target is a truthy dict. -/
def apiEntryVisit (groupPat matchPat : String) (command : Option String)
    (value : String) (grp : String) (p : String × Entry) : String × Entry :=
  if fnmatchB grp groupPat && fnmatchB p.1 matchPat && !p.2.isEmpty then
    (p.1, apiTargetUpdate command value p.2)
  else p

/-- One of the three global maps, after `api_request` walked it. -/
abbrev ApiGroup := List (String × Entry)

def apiGroupUpdate (groupPat matchPat : String) (command : Option String)
    (value : String) (grp : String) (g : ApiGroup) : ApiGroup :=
  g.map (apiEntryVisit groupPat matchPat command value grp)

/-- The three process-wide maps `api_request` can touch. -/
structure ApiState where
  options : ApiGroup
  connections : ApiGroup
  tags : ApiGroup
deriving Repr, DecidableEq

/-- The effect of one `api_request` call on the three global maps. -/
def api_request_apply (groupPat matchPat : String) (command : Option String)
    (value : String) (st : ApiState) : ApiState :=
  { options := apiGroupUpdate groupPat matchPat command value "options" st.options
    connections := apiGroupUpdate groupPat matchPat command value "connections" st.connections
    tags := apiGroupUpdate groupPat matchPat command value "tags" st.tags }

/-! ## Helper lemmas -/

theorem mapPop_lookup (m : ConnMap) (k : String) : (mapPop m k).lookup k = none := by
  induction m with
  | nil => rfl
  | cons a t ih =>
      obtain ⟨ak, av⟩ := a
      simp only [mapPop, List.filter] at ih ⊢
      by_cases h : ak = k
      · simpa [h] using ih
      · have hne : (ak != k) = true := by simpa [bne_iff_ne] using h
        have hke : (k == ak) = false := by
          simpa [beq_eq_false_iff_ne] using Ne.symm h
        rw [hne]
        simp only [List.lookup, hke]
        exact ih

theorem apiTargetUpdate_inactive (command : Option String) (value : String)
    (target : Entry) (h : commandActive command = false) :
    apiTargetUpdate command value target = target := by
  unfold apiTargetUpdate
  rw [h]
  simp

theorem apiEntryVisit_inactive (gp mp : String) (command : Option String)
    (value : String) (grp : String) (p : String × Entry)
    (h : commandActive command = false) :
    apiEntryVisit gp mp command value grp p = p := by
  unfold apiEntryVisit
  rw [apiTargetUpdate_inactive _ _ _ h]
  simp

theorem apiGroupUpdate_inactive (gp mp : String) (command : Option String)
    (value : String) (grp : String) (g : ApiGroup)
    (h : commandActive command = false) :
    apiGroupUpdate gp mp command value grp g = g := by
  induction g with
  | nil => rfl
  | cons p t ih =>
      simp only [apiGroupUpdate, List.map] at ih ⊢
      rw [apiEntryVisit_inactive _ _ _ _ _ _ h, ih]

/-! ## Concrete iteration scripts used as evidence -/

/-- A parsed request for which `enip_process` returns False
(e.g. an UnRegisterSession 0x0066 frame: 24 header bytes, no payload). -/
def iterCloseReq : Iter :=
  { recvBytes := 24, recvEof := false, ctrlEof := false, consumed := 24
    parsed := ParseOutcome.request, proc := ProcOutcome.close }

/-- A parsed request processed normally; the reply send succeeds. -/
def iterReplyOk : Iter :=
  { recvBytes := 28, recvEof := false, ctrlEof := false, consumed := 28
    parsed := ParseOutcome.request, proc := ProcOutcome.reply true }

/-- A parsed request processed normally; `conn.send` raises
`socket.error`. -/
def iterSendErr : Iter :=
  { recvBytes := 28, recvEof := false, ctrlEof := false, consumed := 28
    parsed := ParseOutcome.request, proc := ProcOutcome.reply false }

/-- A stats record whose `eof` flag has been set (e.g. by the control
plane). -/
def eofStats : Stats :=
  { requests := 0, received := 0, eof := true
    iface := "10.0.0.1", port := 49152, processed := 0 }

/-- A session state whose stats carry `eof = true`. -/
def eofSess : SessState :=
  { stats := eofStats, eofLocal := false, sent := 0, consumedTotal := 0 }

/-! ## The claims -/

/-- Claim C1: the claim states that when `enip_process` returns False
(client-initiated termination, e.g. UnRegisterSession 0x0066) the server
sends no reply and the handler loop performs no further iterations.  The
code sends no reply, but lines 661-664 only set the never-read local
variable `eof`; the guard `while not stats.eof` still holds, so the loop
keeps iterating: with only the terminating request scripted the loop is
still hungry for input (`starved`, `stats.eof` still false, nothing
sent), and with one more scripted request the loop processes it and even
sends a reply after the supposed CLOSE. -/
theorem claim_C1_unregister_loop_continues :
    (enip_srv "10.0.0.1" 49152 [iterCloseReq] []).sent = 0
    ∧ (enip_srv "10.0.0.1" 49152 [iterCloseReq] []).outcome = LoopExit.starved
    ∧ (enip_srv "10.0.0.1" 49152 [iterCloseReq] []).finalStats.eof = false
    ∧ (enip_srv "10.0.0.1" 49152 [iterCloseReq, iterReplyOk] []).finalStats.requests = 2
    ∧ (enip_srv "10.0.0.1" 49152 [iterCloseReq, iterReplyOk] []).sent = 1 := by
  decide

/-- Claim C2: the claim states that a `socket.error` raised while
sending a reply terminates the session and the loop reads no further
requests.  The handler at lines 658-660 only sets the never-read local
variable `eof`; `stats.eof` stays false, the loop keeps iterating, and a
subsequently scripted request is read, processed and answered. -/
theorem claim_C2_socket_error_loop_continues :
    (enip_srv "10.0.0.1" 49152 [iterSendErr] []).outcome = LoopExit.starved
    ∧ (enip_srv "10.0.0.1" 49152 [iterSendErr] []).finalStats.eof = false
    ∧ (enip_srv "10.0.0.1" 49152 [iterSendErr, iterReplyOk] []).finalStats.requests = 2
    ∧ (enip_srv "10.0.0.1" 49152 [iterSendErr, iterReplyOk] []).sent = 1 := by
  decide

/-- Claim C3: every accepted connection registers a fresh stats entry in
the `connections` map under `connkey ip port` (the `"<ip>_<port>"` key
with dots replaced by underscores, illustrated concretely), and the
`finally` block removes that entry on every exit path - for every
scripted behaviour of the session, the final map holds no entry for this
connection's key. -/
theorem claim_C3_connection_registry_lifetime :
    (∀ ip port conns,
      (enip_srv_registered ip port conns).lookup (connkey ip port)
        = some (initialStats ip port))
    ∧ (∀ ip port script conns,
      ((enip_srv ip port script conns).connections).lookup (connkey ip port) = none)
    ∧ connkey "10.161.1.5" 44818 = "10_161_1_5_44818" := by
  refine ⟨?_, ?_, by decide⟩
  · intro ip port conns
    simp [enip_srv_registered, mapSet, List.lookup]
  · intro ip port script conns
    exact mapPop_lookup _ _

/-- Claim C4: once `stats.eof` is observed true, the refill loop
performs no `network.recv` call and chains no bytes (exit at the refill
boundary, so nothing further can be parsed), and the outer handler loop
performs no further iterations and sends nothing (the returned state is
exactly the entry state, so `sent` and `requests` are unchanged). -/
theorem claim_C4_eof_exits_at_refill :
    (∀ (stats : Stats) (source : List Nat) (script : List RefillEv),
        stats.eof = true →
        refill stats source script
          = { stats := stats, source := source, recvCount := 0, gotMsg := false })
    ∧ (∀ (s : SessState) (script : List Iter), s.stats.eof = true →
        srv_loop s script = (LoopExit.clean, s)) := by
  constructor
  · intro stats source script h
    obtain ⟨rq, rc, eo, ifc, pt, pr⟩ := stats
    simp only at h
    subst h
    cases script with
    | nil => rfl
    | cons ev rest => simp [refill]
  · intro s script h
    cases script <;> simp [srv_loop, h]

/-- Claim C4 witness: at a concrete eof-flagged state, the refill
returns immediately (even though data is scripted to arrive) and the
handler loop exits cleanly (even though a request is scripted). -/
theorem claim_C4_eof_exits_at_refill_witness :
    refill eofStats [7] [{ eofSet := false, recv := some [1, 2] }]
      = { stats := eofStats, source := [7], recvCount := 0, gotMsg := false }
    ∧ srv_loop eofSess [iterReplyOk] = (LoopExit.clean, eofSess) :=
  ⟨claim_C4_eof_exits_at_refill.1 eofStats [7] [{ eofSet := false, recv := some [1, 2] }] rfl,
   claim_C4_eof_exits_at_refill.2 eofSess [iterReplyOk] rfl⟩

/-- Claim C5: for each reply the handler computes the sleep from the
delay value supplied for that reply (reading `delay.value` when the
object has one); the send is attempted exactly when the socket accepts
it, independently of the delay (so an invalid delay never suppresses the
reply); a positive parseable value is slept in full; an unparseable
value produces no sleep at all. -/
theorem claim_C5_reply_delay_behavior :
    ∀ (delay : Delay) (sendOk : Bool),
      ((send_reply delay sendOk).2 = SendOutcome.sent ↔ sendOk = true)
      ∧ (∀ v s, delay = Delay.obj v → pyFloatV v = some s → 0 < s →
            (send_reply delay sendOk).1 = some s)
      ∧ (∀ v, delay = Delay.obj v → pyFloatV v = none →
            (send_reply delay sendOk).1 = none) := by
  intro delay sendOk
  refine ⟨?_, ?_, ?_⟩
  · cases sendOk <;> simp [send_reply]
  · intro v s hd hv hs
    subst hd
    simp [send_reply, reply_delay, hv, le_of_lt hs]
  · intro v hd hv
    subst hd
    simp [send_reply, reply_delay, hv]

/-- Claim C5 witness: a delay object whose `.value` is the string
`"1.5"` sleeps 1.5 seconds and the reply is sent. -/
theorem claim_C5_reply_delay_behavior_witness :
    (send_reply (Delay.obj (PyV.str "1.5")) true).2 = SendOutcome.sent
    ∧ (send_reply (Delay.obj (PyV.str "1.5")) true).1 = some (3/2) := by
  have h := claim_C5_reply_delay_behavior (Delay.obj (PyV.str "1.5")) true
  have hv : pyFloatV (PyV.str "1.5") = some (3/2) := by
    have hl : ("1.5".toList) = ['1', '.', '5'] := by decide
    simp [pyFloatV, parsePyFloat, hl, natOfDigits]
    norm_num
  exact ⟨h.1.mpr rfl, h.2.1 (PyV.str "1.5") (3/2) rfl hv (by norm_num)⟩

/-- Claim C6 counterexample: a byte source holding a single buffered
byte contains no full frame (a frame needs at least the 24-byte header),
yet the refill timeout is `0`, not the claimed `0.1` - the code's
condition is `source.peek() is None`, not frame completeness. -/
theorem claim_C6_timeout_counterexample :
    full_frame_buffered [0x65] = false ∧ refill_timeout [0x65] = 0
    ∧ ¬ refill_timeout [0x65] = 1/10 := by
  refine ⟨by decide, by simp [refill_timeout], by simp [refill_timeout]⟩

/-- Claim C6 amended: the refill waits with the 0.1-second timeout if
and only if the byte source holds no buffered byte (`source.peek()` is
`None`); whenever any buffered input is available - even a partial
frame - the zero timeout is used. -/
theorem claim_C6_timeout_amended :
    ∀ source : List Nat,
      (refill_timeout source = 1/10 ↔ source = [])
      ∧ (¬ source = [] → refill_timeout source = 0) := by
  intro source
  cases source <;> simp [refill_timeout]

/-- Claim C6 amended witness: one buffered byte gives the zero
timeout. -/
theorem claim_C6_timeout_amended_witness : refill_timeout [1] = 0 :=
  (claim_C6_timeout_amended [1]).2 (by simp)

/-- Claim C7 counterexample: the specification `TAG=INT[0]` has
`SIZE < 1`, which the claim says is rejected as a fatal configuration
error; the code accepts it (`int("0")` succeeds and no bound is
checked). -/
theorem claim_C7_size_zero_accepted :
    parse_tag "TAG=INT[0]" = some ("TAG", "INT", 0) := by
  decide

/-- Claim C7 amended: every accepted specification has type INT, DINT
or SINT (after upper-casing); a bare `NAME` (no `=`) defaults to
`INT[1]`; an explicit size parses through `int()` with no lower bound;
unknown types, mismatched brackets and non-integer sizes are rejected. -/
theorem claim_C7_tag_grammar_amended :
    (∀ t nm ty sz, parse_tag t = some (nm, ty, sz) →
        ty = "INT" ∨ ty = "DINT" ∨ ty = "SINT")
    ∧ (∀ nm, strContains nm '=' = false → parse_tag nm = some (nm, "INT", 1))
    ∧ parse_tag "TAG=DINT[10]" = some ("TAG", "DINT", 10)
    ∧ parse_tag "TAG=FLOAT[3]" = none
    ∧ parse_tag "TAG=INT[3" = none
    ∧ parse_tag "TAG=INT[x]" = none := by
  refine ⟨?_, ?_, by decide, by decide, by decide, by decide⟩
  · intro t nm ty sz h
    simp only [parse_tag] at h
    split_ifs at h
    all_goals (try exact Option.noConfusion h)
    all_goals
      simp only [Option.map_eq_some', Option.some.injEq, Prod.mk.injEq] at h
    all_goals
      first
      | (obtain ⟨a, ha, hnm, hty, hsz⟩ := h
         subst hty
         assumption)
      | (obtain ⟨hnm, hty, hsz⟩ := h
         subst hty
         assumption)
  · intro nm h
    have h1 : strContains "INT" '[' = false := by decide
    have h2 : upperStr "INT" = "INT" := by decide
    simp [parse_tag, h, h1, h2]

/-- Claim C7 amended witness: `TAG=DINT[10]` parses with an allowed
type, and a bare name defaults to `INT[1]`. -/
theorem claim_C7_tag_grammar_amended_witness :
    ("DINT" = "INT" ∨ "DINT" = "DINT" ∨ "DINT" = "SINT")
    ∧ parse_tag "Scada_R" = some ("Scada_R", "INT", 1) :=
  ⟨claim_C7_tag_grammar_amended.1 "TAG=DINT[10]" "TAG" "DINT" 10 (by decide),
   claim_C7_tag_grammar_amended.2.1 "Scada_R" (by decide)⟩

/-- Claim C8: each mutator iteration re-parses the current range string
afresh; when it parses to `(lo, hi)` the assigned value is exactly
`uniform lo hi u` for the fresh random draw `u ∈ [0,1]`, and for
`lo ≤ hi` every assigned value lies within `[lo, hi]`. -/
theorem claim_C8_delay_range_bounds :
    ∀ (s : String) (u v lo hi : ℚ),
      delay_range_parse s = some (lo, hi) → 0 ≤ u → u ≤ 1 → lo ≤ hi →
      delay_range_step s u v = uniform lo hi u
      ∧ lo ≤ delay_range_step s u v ∧ delay_range_step s u v ≤ hi := by
  intro s u v lo hi hp hu0 hu1 hlh
  have hstep : delay_range_step s u v = uniform lo hi u := by
    simp [delay_range_step, hp]
  refine ⟨hstep, ?_, ?_⟩ <;> rw [hstep] <;> simp only [uniform] <;>
    nlinarith [mul_nonneg (sub_nonneg.mpr hlh) hu0,
               mul_nonneg (sub_nonneg.mpr hlh) (sub_nonneg.mpr hu1)]

/-- Claim C8 witness: with range string `".1-.9"` and draw `u = 1/2` the
assigned value is `uniform 0.1 0.9 (1/2)` and lies within
`[0.1, 0.9]`. -/
theorem claim_C8_delay_range_bounds_witness :
    delay_range_step ".1-.9" (1/2) 0 = uniform (1/10) (9/10) (1/2)
    ∧ (1/10 : ℚ) ≤ delay_range_step ".1-.9" (1/2) 0
    ∧ delay_range_step ".1-.9" (1/2) 0 ≤ 9/10 :=
  claim_C8_delay_range_bounds ".1-.9" (1/2) 0 (1/10) (9/10)
    (by
      have h : (splitAll ".1-.9" '-') = [".1", ".9"] := by decide
      have h1 : (".1".toList) = ['.', '1'] := by decide
      have h2 : (".9".toList) = ['.', '9'] := by decide
      simp [delay_range_parse, h, h1, h2, parsePyFloat, natOfDigits])
    (by norm_num) (by norm_num) (by norm_num)

/-- Claim C9: an `api_request` whose command is `"get"` (or absent,
which the HTTP layer defaults to `"get"`) never reaches the `setattr`
branch, so for every glob pair, value and state the three global maps
come back unchanged. -/
theorem claim_C9_get_leaves_maps_unchanged :
    ∀ (groupPat matchPat value : String) (st : ApiState),
      api_request_apply groupPat matchPat (some "get") value st = st
      ∧ api_request_apply groupPat matchPat none value st = st := by
  intro gp mp v st
  have hg : commandActive (some "get") = false := by decide
  have hn : commandActive none = false := rfl
  constructor <;>
    simp [api_request_apply, apiGroupUpdate_inactive _ _ _ _ _ _ hg,
          apiGroupUpdate_inactive _ _ _ _ _ _ hn]

/-- Claim C10: every tag created from an accepted CLI specification with
a non-negative size starts with injected error code 0x00 and an
all-zero default: the scalar `0` when SIZE is 1, otherwise a list of
SIZE zeros. -/
theorem claim_C10_tag_initial_state :
    ∀ (t nm ty : String) (sz : ℤ), parse_tag t = some (nm, ty, sz) → 0 ≤ sz →
      (create_tag sz).error = 0
      ∧ (sz = 1 → (create_tag sz).default = TagDefault.scalar 0)
      ∧ (¬ sz = 1 → ∃ vs, (create_tag sz).default = TagDefault.array vs
            ∧ (vs.length : ℤ) = sz ∧ ∀ x ∈ vs, x = 0) := by
  intro t nm ty sz hp hsz
  refine ⟨rfl, ?_, ?_⟩
  · intro h1
    simp [create_tag, h1]
  · intro h1
    refine ⟨List.replicate sz.toNat 0, by simp [create_tag, h1], ?_, ?_⟩
    · simp [Int.toNat_of_nonneg hsz]
    · intro x hx
      exact List.eq_of_mem_replicate hx

/-- Claim C10 witness: the tag created from `SCADA=INT[3]` has error
0x00 and default `[0, 0, 0]`. -/
theorem claim_C10_tag_initial_state_witness :
    (create_tag 3).error = 0
    ∧ ((3:ℤ) = 1 → (create_tag 3).default = TagDefault.scalar 0)
    ∧ (¬ (3:ℤ) = 1 → ∃ vs, (create_tag 3).default = TagDefault.array vs
          ∧ (vs.length : ℤ) = 3 ∧ ∀ x ∈ vs, x = 0) :=
  claim_C10_tag_initial_state "SCADA=INT[3]" "SCADA" "INT" 3 (by decide) (by norm_num)

end Cpppo
